import Mathlib

/-!
Shallow embedding of `src/img.py` (ImgBot): a Telegram bot that uploads
photo messages to ImgBB and replies with the direct link, greets each
user once on `/start`, and deletes all other messages.

External effects (Telegram sends/deletes, the HTTP POST to ImgBB, the
photo download) are modelled by explicit environment records carrying
the outcome of each external call; each handler is a pure function from
the inbound message, the bot state and such an environment to the list
of performed actions plus an optional escaping exception, mirroring the
Python control flow (try/except placement included) line by line.
-/

namespace ImgBot

/-- Character-list version of Python `str.startswith`: `charsStart s p`
is true when `p` is an initial segment of `s`. -/
def charsStart : List Char → List Char → Bool
  | _, [] => true
  | [], _ :: _ => false
  | a :: as, b :: bs => a == b && charsStart as bs

/-- First whitespace-delimited token of a text, as python-telegram-bot's
CommandHandler extracts the command from `message.text`. -/
def takeToken : List Char → List Char
  | [] => []
  | c :: cs => if c.toNat == 32 then [] else c :: takeToken cs

/-- An inbound Telegram message (`update.message`): chat id, message id,
sender id, optional text, and the list of photo-size variants
(`message.photo`; empty list = no photo). -/
structure Msg where
  chatId : Nat
  messageId : Nat
  userId : Nat
  text : Option String
  photo : List Nat
deriving DecidableEq, Repr

/-- An outbound action performed by a handler: a sent reply
(`reply_text`, with its text, optional `reply_to_message_id`, optional
`parse_mode` and the `disable_web_page_preview` flag) or an attempted
`delete_message`. -/
inductive Action where
  | reply (chatId : Nat) (text : String) (replyTo : Option Nat)
      (parseMode : Option String) (disablePreview : Bool)
  | deleteAttempt (chatId : Nat) (messageId : Nat)
deriving DecidableEq, Repr

/-- Python exceptions relevant to `img.py`: `httpx.RequestError`
(transport failure), `httpx.HTTPStatusError` (from `raise_for_status`),
JSON decode failure, `KeyError` on a missing payload field, and errors
raised by the Telegram client library (e.g. while downloading the photo
or sending a message). -/
inductive Exc where
  | requestError (detail : String)
  | httpStatusError (status : Nat)
  | jsonDecodeError
  | keyError (key : String)
  | telegramError (detail : String)
deriving DecidableEq, Repr

/-- The parts of the ImgBB JSON payload that `handle_photo` reads:
`data["success"]` (`none` = key missing, raising `KeyError`),
`data["data"]["url"]` (`none` = missing, raising `KeyError` when
accessed), and `data.get("error", {}).get("message", ...)`
(`none` = absent, so the default string is used). -/
structure Payload where
  success : Option Bool
  dataUrl : Option String
  errMsg : Option String
deriving DecidableEq, Repr

/-- The HTTP response body: either text that `response.json()` fails to
parse, or a parsed JSON object projected onto the fields the code
reads. -/
inductive Body where
  | invalidJson
  | json (p : Payload)
deriving DecidableEq, Repr

/-- Outcome of `client.post(...)`: the awaited call itself raised
(httpx raises `RequestError` subclasses for DNS/connect/timeout/TLS
failures), or a response with a status code and a body arrived. -/
inductive PostResult where
  | raised (e : Exc)
  | response (status : Nat) (body : Body)
deriving DecidableEq, Repr

/-- Environment of one `handle_photo` run: the outcome of the photo
retrieval (`message.photo[-1].get_file()` + `download_to_memory`, lines
54-59, which run before the `try` block) and the outcome of the HTTP
POST. The outcomes of the handler's own `reply_text` sends (lines 82,
91, 95, 101) are carried separately in `SendEnv`; `handle_photo` below
is the specialization in which all of those sends succeed, and
`handle_photo_fallible` is the full model. -/
structure PhotoEnv where
  fetchPhoto : Except Exc Unit
  post : PostResult
deriving Repr

/-- Outcomes of the `reply_text` sends inside `handle_photo`: the one
send executed inside the `try` block (line 82 on success, line 91 on an
API-level failure — at most one of the two runs per invocation), and
the sends inside the two `except` clauses (lines 95 and 101). -/
structure SendEnv where
  sendTry : Except Exc Unit
  sendNet : Except Exc Unit
  sendUnexpected : Except Exc Unit
deriving Repr

/-- Environment of one `start_command` run: outcome of the greeting
`reply_text` (line 36, outside any try) and of the `delete_message`
call (line 44, inside try/except). -/
structure StartEnv where
  replySend : Except Exc Unit
  deleteOutcome : Except Exc Unit
deriving Repr

/-- Environment of one `delete_unwanted_messages` run: outcome of the
`delete_message` call (inside try/except). -/
structure ModEnv where
  deleteOutcome : Except Exc Unit
deriving Repr

/-- Result of running one handler: the actions it performed, in order,
and the exception escaping it, if any (`none` = returned normally). -/
structure HResult where
  actions : List Action
  exc : Option Exc
deriving DecidableEq, Repr

/-- Process-local bot state: `context.user_data` is keyed by Telegram
user id, so the `start_sent` flags form a set of user ids. -/
structure BotState where
  greeted : List Nat
deriving DecidableEq, Repr

/-- Membership of a user id in the greeted list (the
`'start_sent' in user_data` check). -/
def memNat (u : Nat) : List Nat → Bool
  | [] => false
  | a :: as => a == u || memNat u as

/-- httpx `response.is_success`: status in [200, 300);
`raise_for_status` raises `HTTPStatusError` for every other status. -/
def isSuccessStatus (status : Nat) : Bool :=
  200 ≤ status && status < 300

/-- The fixed greeting text sent on the first `/start` (line 37). -/
def greetingText : String := "This bot was made by\nt.me/ixeuc"

/-- The fixed reply on `httpx.RequestError` (line 96). -/
def networkErrText : String := "An error occurred while connecting to the image host."

/-- The fixed reply on any other exception in the upload try block
(line 102). -/
def unexpectedErrText : String := "An unexpected error occurred during processing."

/-- The default API error reason (line 89). -/
def defaultApiErrText : String := "Unknown ImgBB API Error."

/-- The success reply text (lines 76-79): bold header line, then the
direct link on its own line inside a Markdown code fence. -/
def successReplyText (url : String) : String :=
  "**Uploaded Successfully!**\n" ++ "```\n" ++ url ++ "\n```"

/-- Body of the `try` block of `handle_photo` (lines 62-91):
`raise_for_status`, `response.json()`, the `data["success"]` branch.
Returns the reply action to send, or the exception the block raises. -/
def uploadTryBody (m : Msg) (post : PostResult) : Except Exc Action :=
  match post with
  | .raised e => .error e
  | .response status body =>
    if isSuccessStatus status then
      match body with
      | .invalidJson => .error .jsonDecodeError
      | .json p =>
        match p.success with
        | none => .error (.keyError "success")
        | some s =>
          if s then
            match p.dataUrl with
            | none => .error (.keyError "url")
            | some url =>
              .ok (.reply m.chatId (successReplyText url) (some m.messageId)
                    (some "Markdown") false)
          else
            .ok (.reply m.chatId
                  ("Upload failed: " ++ p.errMsg.getD defaultApiErrText)
                  (some m.messageId) none false)
    else
      .error (.httpStatusError status)

/-- The two `except` clauses of `handle_photo` (lines 93-104) entered
with exception `e`, with a fallible reply send: an `httpx.RequestError`
is answered with the connectivity reply at line 95, anything else with
the generic reply at line 101; a failure of that `reply_text` itself is
inside an `except` body, so it escapes the handler. -/
def exceptChain (m : Msg) (sends : SendEnv) (e : Exc) : HResult :=
  match e with
  | .requestError _ =>
    match sends.sendNet with
    | .ok _ =>
      ⟨[.reply m.chatId networkErrText (some m.messageId) none false], none⟩
    | .error e2 => ⟨[], some e2⟩
  | _ =>
    match sends.sendUnexpected with
    | .ok _ =>
      ⟨[.reply m.chatId unexpectedErrText (some m.messageId) none false], none⟩
    | .error e2 => ⟨[], some e2⟩

/-- `handle_photo` (lines 49-104), full model. The photo retrieval
(lines 54-59) runs before the `try`: a failure there escapes the
handler. Inside the `try`, a failure — of the HTTP exchange, of the
payload handling, or of the in-try `reply_text` at line 82 or 91 — is
dispatched to the `except` chain by its exception type; a failure of a
reply send sitting in an `except` body escapes the handler. All replies
are threaded via `reply_to_message_id`; the handler never deletes
anything. -/
def handle_photo_fallible (m : Msg) (env : PhotoEnv) (sends : SendEnv) :
    HResult :=
  match env.fetchPhoto with
  | .error e => ⟨[], some e⟩
  | .ok _ =>
    match uploadTryBody m env.post with
    | .ok a =>
      match sends.sendTry with
      | .ok _ => ⟨[a], none⟩
      | .error e => exceptChain m sends e
    | .error e => exceptChain m sends e

/-- All of `handle_photo`'s own reply sends succeed. -/
def okSendEnv : SendEnv := ⟨.ok (), .ok (), .ok ()⟩

/-- `handle_photo` (lines 49-104) specialized to the runs in which every
`reply_text` the handler itself performs succeeds (the lemma
`handle_photo_fallible_ok` below proves it equal to
`handle_photo_fallible` under an all-sends-succeed `SendEnv`). Which
reply the handler issues, its content and its threading are determined
entirely at this level. -/
def handle_photo (m : Msg) (env : PhotoEnv) : HResult :=
  match env.fetchPhoto with
  | .error e => ⟨[], some e⟩
  | .ok _ =>
    match uploadTryBody m env.post with
    | .ok a => ⟨[a], none⟩
    | .error e =>
      match e with
      | .requestError _ =>
        ⟨[.reply m.chatId networkErrText (some m.messageId) none false], none⟩
      | _ =>
        ⟨[.reply m.chatId unexpectedErrText (some m.messageId) none false], none⟩

/-- `start_command` (lines 30-46). If the sender's `user_data` has no
`start_sent` flag, send the greeting (link preview disabled) and set
the flag; the greeting send is not guarded by a try, so its failure
escapes (and the flag stays unset). Then always attempt to delete the
command message, swallowing any deletion failure. -/
def start_command (m : Msg) (st : BotState) (env : StartEnv) :
    BotState × HResult :=
  if memNat m.userId st.greeted then
    (st, ⟨[.deleteAttempt m.chatId m.messageId], none⟩)
  else
    match env.replySend with
    | .error e => (st, ⟨[], some e⟩)
    | .ok _ =>
      (⟨m.userId :: st.greeted⟩,
       ⟨[.reply m.chatId greetingText none none true,
         .deleteAttempt m.chatId m.messageId], none⟩)

/-- The guard of `delete_unwanted_messages` on the text (line 111):
`message.text and message.text.startswith('/start')`. -/
def textStartsWithStart (t : Option String) : Bool :=
  match t with
  | some s => charsStart s.data "/start".data
  | none => false

/-- `delete_unwanted_messages` (lines 107-118): delete any message with
no photo whose text does not start with `/start`, swallowing deletion
failures. -/
def delete_unwanted_messages (m : Msg) (_env : ModEnv) : HResult :=
  if m.photo.isEmpty && !(textStartsWithStart m.text) then
    ⟨[.deleteAttempt m.chatId m.messageId], none⟩
  else
    ⟨[], none⟩

/-- `filters.PHOTO`: the message has at least one photo size. -/
def hasPhoto (m : Msg) : Bool := !m.photo.isEmpty

/-- `filters.COMMAND`: the message text starts with a bot-command
marker `/`. -/
def isCommand (m : Msg) : Bool :=
  match m.text with
  | some t => charsStart t.data "/".data
  | none => false

/-- `CommandHandler("start")`: the first token of the text is exactly
`/start`, optionally with a `@botname` suffix. -/
def isStartCommand (m : Msg) : Bool :=
  match m.text with
  | some t =>
    takeToken t.data == "/start".data ||
      charsStart (takeToken t.data) "/start@".data
  | none => false

/-- The three handler routes registered in `main` (lines 128-134). -/
inductive Route where
  | moderation
  | greeting
  | upload
deriving DecidableEq, Repr

/-- Dispatch of one update by the PTB application, per the
registrations in `main`: group -1 holds the catch-all
`MessageHandler(~PHOTO & ~COMMAND, delete_unwanted_messages)` and runs
first; group 0 holds `CommandHandler("start")` then
`MessageHandler(PHOTO & ~COMMAND, handle_photo)`, first match wins. -/
def dispatched (m : Msg) : List Route :=
  (if !(hasPhoto m) && !(isCommand m) then [Route.moderation] else []) ++
    (if isStartCommand m then [Route.greeting]
     else if hasPhoto m && !(isCommand m) then [Route.upload]
     else [])

/-- All three handler environments for one update. -/
structure Env where
  start : StartEnv
  photo : PhotoEnv
  mod : ModEnv
deriving Repr

/-- Run one dispatched route. -/
def runRoute (r : Route) (m : Msg) (st : BotState) (env : Env) :
    BotState × HResult :=
  match r with
  | .moderation => (st, delete_unwanted_messages m env.mod)
  | .greeting => start_command m st env.start
  | .upload => (st, handle_photo m env.photo)

/-- Process one inbound message end to end: dispatch (at most one route
matches, since the three filter conditions are pairwise disjoint) and
run the matched handler, with the upload handler's own sends modelled
as succeeding (`handle_photo`). -/
def process (m : Msg) (st : BotState) (env : Env) : BotState × HResult :=
  match dispatched m with
  | [] => (st, ⟨[], none⟩)
  | r :: _ => runRoute r m st env

/-- Process one inbound message end to end with the full fallible-send
upload model: same dispatch as `process`, but the upload route runs
`handle_photo_fallible`. -/
def processF (m : Msg) (st : BotState) (se : StartEnv) (pe : PhotoEnv)
    (sends : SendEnv) (me : ModEnv) : BotState × HResult :=
  match dispatched m with
  | [] => (st, ⟨[], none⟩)
  | r :: _ =>
    match r with
    | .moderation => (st, delete_unwanted_messages m me)
    | .greeting => start_command m st se
    | .upload => (st, handle_photo_fallible m pe sends)

/-- Is this action a sent reply? -/
def isReply : Action → Bool
  | .reply _ _ _ _ _ => true
  | .deleteAttempt _ _ => false

/-- Is this action a deletion attempt? -/
def isDelete : Action → Bool
  | .reply _ _ _ _ _ => false
  | .deleteAttempt _ _ => true

/-- Number of replies sent among a handler's actions. -/
def replyCount (acts : List Action) : Nat := (acts.filter isReply).length

/-- Number of deletions attempted among a handler's actions. -/
def deleteCount (acts : List Action) : Nat := (acts.filter isDelete).length

/-- Python truthiness of `os.environ.get(...)`: `None` and the empty
string are falsy (line 17 uses `not BOT_TOKEN or not IMGBB_API_KEY`). -/
def pyTruthy : Option String → Bool
  | none => false
  | some s => !s.data.isEmpty

/-- The startup credential check (lines 10-18): `ValueError` is raised,
before any event loop starts, exactly when this is true. -/
def credentialsFatal (botToken imgbbKey : Option String) : Bool :=
  !(pyTruthy botToken) || !(pyTruthy imgbbKey)

/-! ### Helper lemmas -/

lemma charsStart_head_false (a : Char) (s p : List Char)
    (h : charsStart s [a] = false) : charsStart s (a :: p) = false := by
  cases s with
  | nil => rfl
  | cons b bs =>
    simp [charsStart] at h ⊢
    intro hb
    exact absurd hb h

lemma slashData : "/".data = ['/'] := rfl

lemma startTokData : "/start".data = ['/', 's', 't', 'a', 'r', 't'] := rfl

lemma startAtData : "/start@".data = ['/', 's', 't', 'a', 'r', 't', '@'] := rfl

lemma not_command_no_start (t : String) (h : charsStart t.data "/".data = false) :
    charsStart t.data "/start".data = false := by
  rw [startTokData]
  rw [slashData] at h
  exact charsStart_head_false '/' t.data _ h

lemma isStartCommand_isCommand (m : Msg) (h : isStartCommand m = true) :
    isCommand m = true := by
  obtain ⟨ci, mi, ui, tx, ph⟩ := m
  cases tx with
  | none => simp [isStartCommand] at h
  | some t =>
    simp only [isStartCommand, startTokData, startAtData] at h
    simp only [isCommand, slashData]
    cases hd : t.data with
    | nil => rw [hd] at h; simp [takeToken, charsStart] at h
    | cons c cs =>
      rw [hd] at h
      by_cases hsp : c.toNat == 32
      · simp [takeToken, hsp, charsStart] at h
      · simp only [takeToken, hsp, if_neg] at h
        simp [charsStart] at h ⊢
        rcases h with h | h
        · exact h.1
        · exact h.1

lemma isStartCommand_false_of_not_command (m : Msg) (h : isCommand m = false) :
    isStartCommand m = false := by
  cases hs : isStartCommand m with
  | false => rfl
  | true => rw [isStartCommand_isCommand m hs] at h; exact absurd h (by simp)

lemma dispatched_greeting (m : Msg) (h : isStartCommand m = true) :
    dispatched m = [Route.greeting] := by
  have hc := isStartCommand_isCommand m h
  simp [dispatched, h, hc]

lemma dispatched_moderation (m : Msg) (h1 : hasPhoto m = false)
    (h2 : isCommand m = false) : dispatched m = [Route.moderation] := by
  have hs := isStartCommand_false_of_not_command m h2
  simp [dispatched, h1, h2, hs]

lemma dispatched_upload (m : Msg) (h1 : hasPhoto m = true)
    (h2 : isCommand m = false) : dispatched m = [Route.upload] := by
  have hs := isStartCommand_false_of_not_command m h2
  simp [dispatched, h1, h2, hs]

lemma uploadTryBody_is_reply (m : Msg) (post : PostResult) (a : Action)
    (h : uploadTryBody m post = .ok a) : isReply a = true := by
  cases post with
  | raised e => simp [uploadTryBody] at h
  | response status body =>
    by_cases hs : isSuccessStatus status = true
    · cases body with
      | invalidJson => simp [uploadTryBody, hs] at h
      | json p =>
        cases hsucc : p.success with
        | none => simp [uploadTryBody, hs, hsucc] at h
        | some s =>
          cases s with
          | true =>
            cases hurl : p.dataUrl with
            | none => simp [uploadTryBody, hs, hsucc, hurl] at h
            | some url =>
              simp [uploadTryBody, hs, hsucc, hurl] at h
              subst h
              rfl
          | false =>
            simp [uploadTryBody, hs, hsucc] at h
            subst h
            rfl
    · have hs2 : isSuccessStatus status = false := by
        cases hv : isSuccessStatus status
        · rfl
        · exact absurd hv hs
      simp [uploadTryBody, hs2] at h

lemma handle_photo_ok_shape (m : Msg) (pe : PhotoEnv)
    (hf : pe.fetchPhoto = .ok ()) :
    replyCount (handle_photo m pe).actions = 1 ∧
    deleteCount (handle_photo m pe).actions = 0 ∧
    (handle_photo m pe).exc = none := by
  unfold handle_photo
  rw [hf]
  cases hb : uploadTryBody m pe.post with
  | ok a =>
    have ha := uploadTryBody_is_reply m pe.post a hb
    have hd : isDelete a = false := by
      cases a
      · rfl
      · exact absurd ha (by simp [isReply])
    simp [replyCount, deleteCount, ha, hd]
  | error e =>
    cases e <;> simp [replyCount, deleteCount, isReply, isDelete]

lemma handle_photo_no_delete (m : Msg) (pe : PhotoEnv) :
    deleteCount (handle_photo m pe).actions = 0 := by
  unfold handle_photo
  cases hf : pe.fetchPhoto with
  | error e => simp [deleteCount]
  | ok u =>
    cases hb : uploadTryBody m pe.post with
    | ok a =>
      have ha := uploadTryBody_is_reply m pe.post a hb
      have hd : isDelete a = false := by
        cases a
        · rfl
        · exact absurd ha (by simp [isReply])
      simp [deleteCount, hd]
    | error e =>
      cases e <;> simp [deleteCount, isDelete]

lemma handle_photo_fetch_error (m : Msg) (pe : PhotoEnv) (e : Exc)
    (hf : pe.fetchPhoto = .error e) :
    handle_photo m pe = ⟨[], some e⟩ := by
  unfold handle_photo
  rw [hf]

lemma delete_unwanted_fires (m : Msg) (me : ModEnv)
    (h1 : m.photo.isEmpty = true) (h2 : textStartsWithStart m.text = false) :
    delete_unwanted_messages m me = ⟨[.deleteAttempt m.chatId m.messageId], none⟩ := by
  simp [delete_unwanted_messages, h1, h2]

lemma start_command_exc_none (m : Msg) (st : BotState) (se : StartEnv)
    (hr : se.replySend = .ok ()) :
    (start_command m st se).2.exc = none := by
  unfold start_command
  by_cases h : memNat m.userId st.greeted = true
  · simp [h]
  · simp at h
    simp [h, hr]

lemma process_greeting (m : Msg) (st : BotState) (e : Env)
    (h : isStartCommand m = true) :
    process m st e = start_command m st e.start := by
  unfold process runRoute
  rw [dispatched_greeting m h]

lemma process_moderation (m : Msg) (st : BotState) (e : Env)
    (h1 : hasPhoto m = false) (h2 : isCommand m = false) :
    process m st e = (st, delete_unwanted_messages m e.mod) := by
  unfold process runRoute
  rw [dispatched_moderation m h1 h2]

lemma process_upload (m : Msg) (st : BotState) (e : Env)
    (h1 : hasPhoto m = true) (h2 : isCommand m = false) :
    process m st e = (st, handle_photo m e.photo) := by
  unfold process runRoute
  rw [dispatched_upload m h1 h2]

lemma handle_photo_fallible_ok (m : Msg) (pe : PhotoEnv) :
    handle_photo_fallible m pe okSendEnv = handle_photo m pe := by
  cases hf : pe.fetchPhoto with
  | error e => simp [handle_photo_fallible, handle_photo, hf]
  | ok u =>
    cases hb : uploadTryBody m pe.post with
    | ok a => simp [handle_photo_fallible, handle_photo, hf, hb, okSendEnv]
    | error e =>
      cases e <;>
        simp [handle_photo_fallible, handle_photo, exceptChain, hf, hb,
          okSendEnv]

lemma exceptChain_no_delete (m : Msg) (sends : SendEnv) (e : Exc) :
    deleteCount (exceptChain m sends e).actions = 0 := by
  cases e
  case requestError d =>
    cases hn : sends.sendNet <;> simp [exceptChain, hn, deleteCount, isDelete]
  all_goals
    cases hu : sends.sendUnexpected <;>
      simp [exceptChain, hu, deleteCount, isDelete]

lemma handle_photo_fallible_no_delete (m : Msg) (pe : PhotoEnv)
    (sends : SendEnv) :
    deleteCount (handle_photo_fallible m pe sends).actions = 0 := by
  cases hf : pe.fetchPhoto with
  | error e => simp [handle_photo_fallible, hf, deleteCount]
  | ok u =>
    cases hb : uploadTryBody m pe.post with
    | ok a =>
      cases hs : sends.sendTry with
      | ok u2 =>
        have ha := uploadTryBody_is_reply m pe.post a hb
        have hd : isDelete a = false := by
          cases a
          · rfl
          · exact absurd ha (by simp [isReply])
        simp [handle_photo_fallible, hf, hb, hs, deleteCount, hd]
      | error e =>
        have h := exceptChain_no_delete m sends e
        simp [handle_photo_fallible, hf, hb, hs, h]
    | error e =>
      have h := exceptChain_no_delete m sends e
      simp [handle_photo_fallible, hf, hb, h]

lemma processF_moderation (m : Msg) (st : BotState) (se : StartEnv)
    (pe : PhotoEnv) (sends : SendEnv) (me : ModEnv)
    (h1 : hasPhoto m = false) (h2 : isCommand m = false) :
    processF m st se pe sends me = (st, delete_unwanted_messages m me) := by
  unfold processF
  rw [dispatched_moderation m h1 h2]

lemma processF_greeting (m : Msg) (st : BotState) (se : StartEnv)
    (pe : PhotoEnv) (sends : SendEnv) (me : ModEnv)
    (h : isStartCommand m = true) :
    processF m st se pe sends me = start_command m st se := by
  unfold processF
  rw [dispatched_greeting m h]

lemma processF_upload (m : Msg) (st : BotState) (se : StartEnv)
    (pe : PhotoEnv) (sends : SendEnv) (me : ModEnv)
    (h1 : hasPhoto m = true) (h2 : isCommand m = false) :
    processF m st se pe sends me = (st, handle_photo_fallible m pe sends) := by
  unfold processF
  rw [dispatched_upload m h1 h2]

lemma string_data_nil_iff (s : String) : s.data = [] ↔ s = "" := by
  constructor
  · intro h
    exact String.ext h
  · intro h
    subst h
    rfl

lemma pyTruthy_some_iff (s : String) : pyTruthy (some s) = true ↔ s ≠ "" := by
  simp only [pyTruthy, Bool.not_eq_true']
  rw [List.isEmpty_eq_false]
  simp [string_data_nil_iff]

/-! ### Concrete sample messages, states and environments -/

/-- The empty bot state: no user greeted yet. -/
def st0 : BotState := ⟨[]⟩

/-- Greeting and deletion both succeed. -/
def okStartEnv : StartEnv := ⟨.ok (), .ok ()⟩

/-- Photo retrieval succeeds and ImgBB answers 200 with a success payload. -/
def okPhotoEnv : PhotoEnv :=
  ⟨.ok (), .response 200 (.json ⟨some true, some "https://i.ibb.co/abc/image.jpg", none⟩)⟩

/-- Deletion succeeds. -/
def okModEnv : ModEnv := ⟨.ok ()⟩

/-- All external calls succeed. -/
def okEnv : Env := ⟨okStartEnv, okPhotoEnv, okModEnv⟩

/-- A `/start` command from user 7 in chat 1. -/
def mStart1 : Msg := ⟨1, 10, 7, some "/start", []⟩

/-- A `/start` command from the same user 7 in a different chat 2. -/
def mStart2 : Msg := ⟨2, 11, 7, some "/start", []⟩

/-- A command other than `/start`. -/
def mHelp : Msg := ⟨1, 12, 7, some "/help", []⟩

/-- A plain text message. -/
def mText : Msg := ⟨1, 13, 7, some "hello", []⟩

/-- A photo message with three size variants. -/
def mPhoto : Msg := ⟨1, 14, 7, none, [100, 200, 300]⟩

/-- HTTP 200 but the API reports failure with an error message. -/
def apiFailEnv1 : PhotoEnv :=
  ⟨.ok (), .response 200 (.json ⟨some false, none, some "rate limited"⟩)⟩

/-- HTTP 200 but the API reports failure with no error object. -/
def apiFailEnv2 : PhotoEnv :=
  ⟨.ok (), .response 200 (.json ⟨some false, none, none⟩)⟩

/-- The HTTP POST raises a transport-level `httpx.RequestError`. -/
def netFailEnv : PhotoEnv := ⟨.ok (), .raised (.requestError "connect timeout")⟩

/-- HTTP 404 whose body is nonetheless a well-formed failure payload. -/
def badStatusEnv : PhotoEnv :=
  ⟨.ok (), .response 404 (.json ⟨some false, none, some "rate limited"⟩)⟩

/-! ### Claim theorems -/

/-- Claim C2, counterexample: the claim says never both a reply and a
delete for the same message, but the first `/start` from a fresh sender
receives the greeting reply AND a deletion attempt of the command
message (full fallible-send model, all sends succeeding). -/
theorem C2_counterexample :
    replyCount
      (processF mStart1 st0 okStartEnv okPhotoEnv okSendEnv okModEnv).2.actions
      = 1 ∧
    deleteCount
      (processF mStart1 st0 okStartEnv okPhotoEnv okSendEnv okModEnv).2.actions
      = 1 := by decide

/-- Claim C2, amended: on the moderation path exactly one delete and no
reply occurs; on the upload path a delete never occurs, and exactly one
reply with no escaping exception occurs when the photo retrieval and the
handler's own sends succeed; on the greeting path an already-greeted
sender gets exactly one delete and no reply, a fresh sender whose
greeting send succeeds gets both the greeting reply and one delete
(refuting "never both"), and a fresh sender whose greeting send fails
gets no terminal action at all — the exception escapes before the
delete (refuting "never neither"). -/
theorem C2_amended_terminal_actions (m : Msg) (st : BotState) (se : StartEnv)
    (pe : PhotoEnv) (sends : SendEnv) (me : ModEnv) :
    (hasPhoto m = false → isCommand m = false →
      (processF m st se pe sends me).2 =
        ⟨[.deleteAttempt m.chatId m.messageId], none⟩) ∧
    (hasPhoto m = true → isCommand m = false →
      deleteCount (processF m st se pe sends me).2.actions = 0 ∧
      (pe.fetchPhoto = .ok () → sends = okSendEnv →
        replyCount (processF m st se pe sends me).2.actions = 1 ∧
        (processF m st se pe sends me).2.exc = none)) ∧
    (isStartCommand m = true →
      (memNat m.userId st.greeted = true →
        (processF m st se pe sends me).2 =
          ⟨[.deleteAttempt m.chatId m.messageId], none⟩) ∧
      (memNat m.userId st.greeted = false → se.replySend = .ok () →
        (processF m st se pe sends me).2 =
          ⟨[.reply m.chatId greetingText none none true,
            .deleteAttempt m.chatId m.messageId], none⟩) ∧
      (∀ e2, memNat m.userId st.greeted = false →
        se.replySend = .error e2 →
        (processF m st se pe sends me).2 = ⟨[], some e2⟩)) := by
  refine ⟨?_, ?_, ?_⟩
  · intro h1 h2
    rw [processF_moderation m st se pe sends me h1 h2]
    have hempty : m.photo.isEmpty = true := by simpa [hasPhoto] using h1
    have htx : textStartsWithStart m.text = false := by
      obtain ⟨ci, mi, ui, tx, ph⟩ := m
      cases tx with
      | none => rfl
      | some t =>
        simp only [isCommand] at h2
        simp only [textStartsWithStart]
        exact not_command_no_start t h2
    rw [delete_unwanted_fires m me hempty htx]
  · intro h1 h2
    rw [processF_upload m st se pe sends me h1 h2]
    refine ⟨handle_photo_fallible_no_delete m pe sends, ?_⟩
    intro hf hsend
    subst hsend
    rw [handle_photo_fallible_ok m pe]
    exact ⟨(handle_photo_ok_shape m pe hf).1,
           (handle_photo_ok_shape m pe hf).2.2⟩
  · intro h
    rw [processF_greeting m st se pe sends me h]
    refine ⟨?_, ?_, ?_⟩
    · intro hm
      unfold start_command
      simp [hm]
    · intro hm hrep
      unfold start_command
      simp [hm, hrep]
    · intro e2 hm hrep
      unfold start_command
      simp [hm, hrep]

/-- Claim C2, witness: the amended theorem at a fresh `/start` (whose
greeting branch produces both the greeting reply and one delete attempt)
and at a plain text message (exactly one delete, no reply). -/
theorem C2_amended_terminal_actions_witness :
    (processF mStart1 st0 okStartEnv okPhotoEnv okSendEnv okModEnv).2 =
      ⟨[.reply mStart1.chatId greetingText none none true,
        .deleteAttempt mStart1.chatId mStart1.messageId], none⟩ ∧
    (processF mText st0 okStartEnv okPhotoEnv okSendEnv okModEnv).2 =
      ⟨[.deleteAttempt mText.chatId mText.messageId], none⟩ := by
  constructor
  · have h := C2_amended_terminal_actions mStart1 st0 okStartEnv okPhotoEnv
      okSendEnv okModEnv
    exact (h.2.2 (by decide)).2.1 (by decide) rfl
  · have h := C2_amended_terminal_actions mText st0 okStartEnv okPhotoEnv
      okSendEnv okModEnv
    exact h.1 (by decide) (by decide)

/-- Claim C3, counterexample: "/help" is a text message that does not
start with the start-command token and has no photo, yet the dispatcher
excludes it (the catch-all handler is registered with `~filters.COMMAND`),
so no handler fires and deletion is attempted zero times, not once. -/
theorem C3_counterexample :
    textStartsWithStart mHelp.text = false ∧ hasPhoto mHelp = false ∧
    dispatched mHelp = [] ∧
    deleteCount (process mHelp st0 okEnv).2.actions = 0 := by decide

/-- Claim C3, amended: for every inbound text message that is not a
command (its text does not start with "/") and has no photo attachment,
the moderation path fires and deletion of that message is attempted
exactly once, with no escaping exception. -/
theorem C3_amended_moderation_scope (m : Msg) (st : BotState) (e : Env)
    (t : String) (ht : m.text = some t)
    (hnc : charsStart t.data "/".data = false) (hph : m.photo = []) :
    (process m st e).2.actions = [.deleteAttempt m.chatId m.messageId] ∧
    (process m st e).2.exc = none ∧
    deleteCount (process m st e).2.actions = 1 := by
  have h1 : hasPhoto m = false := by simp [hasPhoto, hph]
  have h2 : isCommand m = false := by
    obtain ⟨ci, mi, ui, tx, ph⟩ := m
    simp only [Msg.text] at ht
    subst ht
    simpa only [isCommand] using hnc
  have hempty : m.photo.isEmpty = true := by simp [hph]
  have htx : textStartsWithStart m.text = false := by
    rw [ht]
    simpa only [textStartsWithStart] using not_command_no_start t hnc
  rw [process_moderation m st e h1 h2, delete_unwanted_fires m e.mod hempty htx]
  refine ⟨rfl, rfl, ?_⟩
  simp [deleteCount, isDelete]

/-- Claim C3, witness: the amended theorem at the concrete text message
"hello". -/
theorem C3_amended_moderation_scope_witness :
    (process mText st0 okEnv).2.actions
      = [.deleteAttempt mText.chatId mText.messageId] ∧
    (process mText st0 okEnv).2.exc = none ∧
    deleteCount (process mText st0 okEnv).2.actions = 1 :=
  C3_amended_moderation_scope mText st0 okEnv "hello" rfl (by decide) rfl

/-- Claim C4, counterexample: the claim says each chat's fresh session
receives its own greeting regardless of sender. With the same user 7
sending `/start` in chat 1 and then in a different chat 2, the first
command is greeted but the second is not — the flag lives in
`context.user_data`, keyed by user, not by chat. -/
theorem C4_counterexample :
    mStart1.chatId ≠ mStart2.chatId ∧
    replyCount (process mStart1 st0 okEnv).2.actions = 1 ∧
    replyCount (process mStart2 (process mStart1 st0 okEnv).1 okEnv).2.actions
      = 0 := by decide

/-- Claim C4, amended: the greeted flag is keyed by user identifier
(`context.user_data`): on any start command the number of greetings sent
is 1 if the sender's flag is unset and 0 if it is set, independently of
the chat identifier, and afterwards the sender's flag is set. -/
theorem C4_amended_keyed_by_user (m : Msg) (st : BotState) (e : Env)
    (hs : isStartCommand m = true) (hr : e.start.replySend = .ok ()) :
    replyCount (process m st e).2.actions =
      (if memNat m.userId st.greeted = true then 0 else 1) ∧
    memNat m.userId (process m st e).1.greeted = true := by
  rw [process_greeting m st e hs]
  unfold start_command
  by_cases hm : memNat m.userId st.greeted = true
  · simp [hm, replyCount, isReply]
  · rw [hr]
    simp [hm, replyCount, isReply, memNat]

/-- Claim C4, witness: the amended theorem at a concrete fresh `/start`. -/
theorem C4_amended_keyed_by_user_witness :
    replyCount (process mStart1 st0 okEnv).2.actions =
      (if memNat mStart1.userId st0.greeted = true then 0 else 1) ∧
    memNat mStart1.userId (process mStart1 st0 okEnv).1.greeted = true :=
  C4_amended_keyed_by_user mStart1 st0 okEnv (by decide) rfl

/-- Claim C5: on an HTTP success status with a payload whose `success`
field is false, the handler replies "Upload failed: <reason>" where the
reason is the payload's error message, or the default string
"Unknown ImgBB API Error." (the code's equivalent of "Unknown error")
when it is absent; no exception escapes. -/
theorem C5_api_error_reply (m : Msg) (pe : PhotoEnv) (status : Nat)
    (p : Payload) (hf : pe.fetchPhoto = .ok ())
    (hp : pe.post = .response status (.json p))
    (hs : isSuccessStatus status = true) (hsucc : p.success = some false) :
    handle_photo m pe =
      ⟨[.reply m.chatId ("Upload failed: " ++ p.errMsg.getD defaultApiErrText)
          (some m.messageId) none false], none⟩ ∧
    defaultApiErrText = "Unknown ImgBB API Error." := by
  constructor
  · unfold handle_photo
    rw [hf, hp]
    simp [uploadTryBody, hs, hsucc]
  · rfl

/-- Claim C5, witness: the theorem at the payloads
`{success:false, error:{message:"rate limited"}}` and `{success:false}`
with no error object. -/
theorem C5_api_error_reply_witness :
    handle_photo mPhoto apiFailEnv1 =
      ⟨[.reply 1 "Upload failed: rate limited" (some 14) none false], none⟩ ∧
    handle_photo mPhoto apiFailEnv2 =
      ⟨[.reply 1 "Upload failed: Unknown ImgBB API Error." (some 14) none false],
        none⟩ := by
  constructor
  · have h := (C5_api_error_reply mPhoto apiFailEnv1 200
      ⟨some false, none, some "rate limited"⟩ rfl rfl (by decide) rfl).1
    exact h.trans (by decide)
  · have h := (C5_api_error_reply mPhoto apiFailEnv2 200
      ⟨some false, none, none⟩ rfl rfl (by decide) rfl).1
    exact h.trans (by decide)

/-- Claim C6: on an HTTP success status with `success` true and a URL,
the handler replies to the originating message (threaded via
`reply_to_message_id`) with the bold "Uploaded Successfully!" line
followed by the URL on its own line inside a literal Markdown code
fence; and the upload handler never attempts a deletion in any
environment. -/
theorem C6_success_reply (m : Msg) (pe : PhotoEnv) (status : Nat)
    (url : String) (em : Option String) (hf : pe.fetchPhoto = .ok ())
    (hp : pe.post = .response status (.json ⟨some true, some url, em⟩))
    (hs : isSuccessStatus status = true) :
    handle_photo m pe =
      ⟨[.reply m.chatId
          ("**Uploaded Successfully!**\n" ++ "```\n" ++ url ++ "\n```")
          (some m.messageId) (some "Markdown") false], none⟩ ∧
    (∀ pe2 : PhotoEnv, deleteCount (handle_photo m pe2).actions = 0) := by
  constructor
  · unfold handle_photo
    rw [hf, hp]
    simp [uploadTryBody, hs, successReplyText]
  · intro pe2
    exact handle_photo_no_delete m pe2

/-- Claim C6, witness: the theorem at a concrete photo message and the
URL `https://i.ibb.co/abc/image.jpg`. -/
theorem C6_success_reply_witness :
    handle_photo mPhoto okPhotoEnv =
      ⟨[.reply 1
          "**Uploaded Successfully!**\n```\nhttps://i.ibb.co/abc/image.jpg\n```"
          (some 14) (some "Markdown") false], none⟩ ∧
    deleteCount (handle_photo mPhoto okPhotoEnv).actions = 0 := by
  have h := C6_success_reply mPhoto okPhotoEnv 200
    "https://i.ibb.co/abc/image.jpg" none rfl rfl (by decide)
  exact ⟨h.1.trans (by decide), h.2 okPhotoEnv⟩

/-- Claim C7: on an `httpx.RequestError` (DNS, connect, timeout, TLS),
the handler replies with the fixed could-not-connect message — the reply
is the same constant for every transport detail string, so no low-level
detail leaks — and no exception escapes. -/
theorem C7_network_error_reply (m : Msg) (pe : PhotoEnv) (d : String)
    (hf : pe.fetchPhoto = .ok ()) (hp : pe.post = .raised (.requestError d)) :
    handle_photo m pe =
      ⟨[.reply m.chatId networkErrText (some m.messageId) none false], none⟩ ∧
    networkErrText = "An error occurred while connecting to the image host." := by
  constructor
  · unfold handle_photo
    rw [hf, hp]
    simp [uploadTryBody]
  · rfl

/-- Claim C7, witness: the theorem at a concrete simulated connection
timeout. -/
theorem C7_network_error_reply_witness :
    handle_photo mPhoto netFailEnv =
      ⟨[.reply mPhoto.chatId networkErrText (some mPhoto.messageId) none false],
        none⟩ :=
  (C7_network_error_reply mPhoto netFailEnv "connect timeout" rfl rfl).1

/-- Claim C8: the greeted flag never reverts — any user marked greeted
stays greeted after processing any further message — and a second start
command from an already-greeted sender sends no greeting text and only
attempts deletion of the command message. -/
theorem C8_greeted_monotone (m : Msg) (st : BotState) (e : Env) (u : Nat)
    (hu : memNat u st.greeted = true) :
    memNat u (process m st e).1.greeted = true ∧
    (isStartCommand m = true → memNat m.userId st.greeted = true →
      (process m st e).2 = ⟨[.deleteAttempt m.chatId m.messageId], none⟩) := by
  constructor
  · unfold process
    cases hd : dispatched m with
    | nil => exact hu
    | cons r rs =>
      cases r with
      | moderation => exact hu
      | upload => exact hu
      | greeting =>
        unfold runRoute start_command
        by_cases hm : memNat m.userId st.greeted = true
        · simp [hm, hu]
        · cases hrep : e.start.replySend with
          | error er => simp [hm, hrep, hu]
          | ok uu => simp [hm, hrep, memNat, hu]
  · intro hs hm
    rw [process_greeting m st e hs]
    unfold start_command
    simp [hm]

/-- Claim C8, witness: the theorem at a second `/start` from user 7,
already greeted. -/
theorem C8_greeted_monotone_witness :
    memNat 7 (process mStart2 (⟨[7]⟩ : BotState) okEnv).1.greeted = true ∧
    (process mStart2 (⟨[7]⟩ : BotState) okEnv).2 =
      ⟨[.deleteAttempt mStart2.chatId mStart2.messageId], none⟩ := by
  have h := C8_greeted_monotone mStart2 ⟨[7]⟩ okEnv 7 (by decide)
  exact ⟨h.1, h.2 (by decide) (by decide)⟩

/-- Claim C9, counterexample: the claim says startup fails if and only
if a credential is absent, and proceeds when both are present. The check
is `not BOT_TOKEN or not IMGBB_API_KEY`, Python truthiness: a credential
that is present but equal to the empty string also aborts startup. -/
theorem C9_counterexample :
    credentialsFatal (some "") (some "apikey") = true ∧
    credentialsFatal (some "token") (some "") = true := by decide

/-- Claim C9, amended: startup proceeds if and only if both the
BOT_TOKEN credential and the IMGBB_API_KEY credential are present and
non-empty; equivalently it fails fatally iff either is absent or the
empty string. -/
theorem C9_amended_fatal_iff (botToken imgbbKey : Option String) :
    credentialsFatal botToken imgbbKey = false ↔
      ((∃ s, botToken = some s ∧ s ≠ "") ∧
       (∃ s, imgbbKey = some s ∧ s ≠ "")) := by
  cases botToken with
  | none => simp [credentialsFatal, pyTruthy]
  | some sb =>
    cases imgbbKey with
    | none => simp [credentialsFatal, pyTruthy]
    | some sk =>
      simp only [credentialsFatal, Bool.or_eq_false_iff, Bool.not_eq_false']
      rw [pyTruthy_some_iff, pyTruthy_some_iff]
      constructor
      · rintro ⟨h1, h2⟩
        exact ⟨⟨sb, rfl, h1⟩, ⟨sk, rfl, h2⟩⟩
      · rintro ⟨⟨s1, hs1, hn1⟩, ⟨s2, hs2, hn2⟩⟩
        cases hs1
        cases hs2
        exact ⟨hn1, hn2⟩

/-- Claim C10: on any non-2xx HTTP status, `raise_for_status` raises
before the payload is parsed, the exception lands in the generic
`except Exception` branch, and the handler replies with the fixed
unexpected-processing-error message — for every body, including a
well-formed failure payload carrying an error message. -/
theorem C10_non2xx_unexpected (m : Msg) (pe : PhotoEnv) (status : Nat)
    (body : Body) (hf : pe.fetchPhoto = .ok ())
    (hp : pe.post = .response status body)
    (hs : isSuccessStatus status = false) :
    handle_photo m pe =
      ⟨[.reply m.chatId unexpectedErrText (some m.messageId) none false],
        none⟩ ∧
    unexpectedErrText = "An unexpected error occurred during processing." := by
  constructor
  · unfold handle_photo
    rw [hf, hp]
    simp [uploadTryBody, hs]
  · rfl

/-- Claim C10, witness: the theorem at HTTP 404 whose body is a
well-formed failure payload with message "rate limited" — the reply is
still the generic unexpected-error message, not "Upload failed: ...". -/
theorem C10_non2xx_unexpected_witness :
    handle_photo mPhoto badStatusEnv =
      ⟨[.reply mPhoto.chatId unexpectedErrText (some mPhoto.messageId) none
          false], none⟩ :=
  (C10_non2xx_unexpected mPhoto badStatusEnv 404
    (.json ⟨some false, none, some "rate limited"⟩) rfl rfl (by decide)).1

end ImgBot
